import Mathlib

/-!
Verification of the Smart City Dashboard blackout-management core.

The repository ships the blackout backend only as documentation
(src/backend/blackout/readme.md); the incident allocation pipeline itself
(Cascade Risk Analyzer, Weather Impact Adjuster, Allocation Planner,
Recovery Scheduler, Incident Manager) is therefore modelled here from the
specification's own component design, and the dashboard frontend
(src/frontend, src/unnamed) is embedded from its TypeScript source.
Percentages, risk scores and hours are modelled as exact rationals.
-/

namespace Blackout

/-- Modelled from the spec: zone priority levels (data model, Zone). -/
inductive Priority
  | CRITICAL
  | HIGH
  | MEDIUM
  | LOW
deriving DecidableEq, Repr

/-- Modelled from the spec: incident severity levels (data model, Incident). -/
inductive Severity
  | MINOR
  | MODERATE
  | MAJOR
  | CATASTROPHIC
deriving DecidableEq, Repr

/-- Modelled from the spec: incident causes (data model, Incident). -/
inductive Cause
  | grid_failure
  | overload
  | weather_damage
  | cyber_attack
  | equipment_failure
deriving DecidableEq, Repr

/-- Modelled from the spec: zone power states (data model, Zone). -/
inductive PowerState
  | FULL_POWER
  | REDUCED_POWER
  | BACKUP_POWER
  | NO_POWER
deriving DecidableEq, Repr

/-- Modelled from the spec: incident lifecycle status (data model, Incident). -/
inductive IStatus
  | ACTIVE
  | RECOVERING
  | RESOLVED
deriving DecidableEq, Repr

/-- Modelled from the spec: error taxonomy of the Incident Manager boundary. -/
inductive Err
  | InvalidRequest
  | UnknownZone
  | UnknownIncident
deriving DecidableEq, Repr

/-- Clamp a rational into the closed interval from lo to hi. -/
def clampQ (x lo hi : ℚ) : ℚ := max lo (min x hi)

/-- Modelled from the spec: severity-based target table of the Allocation
Planner (missing backend module), percent of normal allocation for
non-CRITICAL zones before floor and ceiling clamping. -/
def severityTarget : Severity → ℚ
  | .MINOR => 90
  | .MODERATE => 65
  | .MAJOR => 35
  | .CATASTROPHIC => 10

/-- Modelled from the spec: priority floors of the Allocation Planner
(missing backend module); minimum guaranteed percent. -/
def priorityFloor : Priority → ℚ
  | .CRITICAL => 100
  | .HIGH => 70
  | .MEDIUM => 0
  | .LOW => 0

/-- Modelled from the spec: priority ceilings of the Allocation Planner
(missing backend module); CRITICAL and HIGH are uncapped below 100,
MEDIUM has default ceiling 40 and LOW has default ceiling 20. -/
def priorityCeiling : Priority → ℚ
  | .CRITICAL => 100
  | .HIGH => 100
  | .MEDIUM => 40
  | .LOW => 20

/-- Modelled from the spec: the Allocation Planner's per-zone target,
the severity target clamped between the priority floor and ceiling. -/
def targetPercent (p : Priority) (sv : Severity) : ℚ :=
  clampQ (severityTarget sv) (priorityFloor p) (priorityCeiling p)

/-- Modelled from the spec: base cascade risk by severity in the Cascade
Risk Analyzer (missing backend module). -/
def baseRisk : Severity → ℚ
  | .MINOR => 1/20
  | .MODERATE => 1/4
  | .MAJOR => 11/20
  | .CATASTROPHIC => 4/5

/-- Rank of a severity level in the MINOR < MODERATE < MAJOR < CATASTROPHIC
order. -/
def sevRank : Severity → ℕ
  | .MINOR => 0
  | .MODERATE => 1
  | .MAJOR => 2
  | .CATASTROPHIC => 3

/-- Modelled from the spec: the two structurally fragile causes recognised
by the Cascade Risk Analyzer. -/
def causeFragile (c : Cause) : Bool :=
  c = Cause.cyber_attack ∨ c = Cause.weather_damage

/-- Modelled from the spec: the Cascade Risk Analyzer (missing backend
module).  Base risk by severity, plus a zone-fraction term, plus a fragile
cause bonus, plus a grid-health term, clamped into the unit interval. -/
def cascadeRisk (sv : Severity) (affectedCount totalCount : ℕ)
    (c : Cause) (health : ℚ) : ℚ :=
  let zoneTerm : ℚ := (1/10) * min ((affectedCount : ℚ) / (totalCount : ℚ)) 1
  let causeTerm : ℚ := if causeFragile c then 3/20 else 0
  let healthTerm : ℚ := (1/10) * (1 - health / 100)
  clampQ (baseRisk sv + zoneTerm + causeTerm + healthTerm) 0 1

/-- Modelled from the spec: the Weather Impact Adjuster's condition table
(missing backend module); an unknown condition maps to multiplier 1. -/
def weatherMultiplier (c : String) : ℚ :=
  if c = "clear" then 1
  else if c = "rain" then 11/10
  else if c = "heatwave" then 13/10
  else if c = "storm" then 3/2
  else if c = "flooding" then 17/10
  else if c = "cyclone" then 2
  else 1

/-- Modelled from the spec: the outputs of the Weather Impact Adjuster. -/
structure WeatherImpact where
  estimated_recovery_hours : ℚ
  cascade_risk : ℚ
  outdoor_work_safe : Bool
deriving DecidableEq, Repr

/-- Modelled from the spec: the Weather Impact Adjuster (missing backend
module).  Scales the recovery estimate by the condition multiplier, bumps
cascade risk, and flags outdoor work as unsafe from multiplier 1.5 up. -/
def applyWeather (c : String) (hours risk : ℚ) : WeatherImpact :=
  let m := weatherMultiplier c
  { estimated_recovery_hours := hours * m
    cascade_risk := min 1 (risk + (3/10) * (m - 1))
    outdoor_work_safe := decide (m < 3/2) }

/-- Modelled from the spec: a power zone (data model, Zone); the fields the
allocation pipeline reads and writes.  The frozen flag records a manual
allocation freeze per the Recovery Scheduler's cancellation rule. -/
structure Zone where
  id : String
  priority : Priority
  backupAvailable : Bool
  alloc : ℚ
  powerState : PowerState
  frozen : Bool
deriving DecidableEq, Repr

/-- Modelled from the spec: power_state as a deterministic function of the
allocation percent and backup availability (data model invariant). -/
def stateFor (a : ℚ) (backup : Bool) : PowerState :=
  if a = 100 then .FULL_POWER
  else if a = 0 then (if backup then .BACKUP_POWER else .NO_POWER)
  else .REDUCED_POWER

/-- Set a zone's allocation percent and recompute its power state. -/
def setAlloc (p : ℚ) (z : Zone) : Zone :=
  { z with alloc := p, powerState := stateFor p z.backupAvailable }

/-- Modelled from the spec: a blackout incident (data model, Incident);
the fields the lifecycle operations read and write.  taskRunning models
whether the per-incident recovery task is still live. -/
structure Incident where
  iid : ℕ
  cause : Cause
  severity : Severity
  affected : List String
  status : IStatus
  progress : ℚ
  resolvedAt : Option ℕ
  taskRunning : Bool
deriving DecidableEq, Repr

/-- Modelled from the spec: the shared mutable state of the Incident
Manager, the zone table and the incident table. -/
structure Sys where
  zones : List Zone
  incidents : List Incident
deriving DecidableEq, Repr

/-- Look an incident up by id in the incident table. -/
def findInc (iid : ℕ) (s : Sys) : Option Incident :=
  s.incidents.find? (fun i => i.iid == iid)

/-- Modelled from the spec: the Incident Manager's simulate operation
(missing backend module).  Rejects an empty affected_zones list with
InvalidRequest and an unknown zone id with UnknownZone, before any state
change; otherwise creates the incident and applies the Allocation
Planner's plan to exactly the affected zones. -/
def simulate (iid : ℕ) (c : Cause) (sv : Severity) (affected : List String)
    (s : Sys) : Except Err Sys :=
  if affected = [] then .error .InvalidRequest
  else if ∀ zid ∈ affected, ∃ z ∈ s.zones, z.id = zid then
    .ok
      { zones := s.zones.map (fun z =>
          if z.id ∈ affected then
            { setAlloc (targetPercent z.priority sv) z with frozen := false }
          else z)
        incidents := s.incidents ++
          [{ iid := iid, cause := c, severity := sv, affected := affected
             status := .ACTIVE, progress := 0, resolvedAt := none
             taskRunning := true }] }
  else .error .UnknownZone

/-- Modelled from the spec: the start of the recovery phase gating a
priority tier (Recovery Scheduler, missing backend module); each phase
spans twenty progress points. -/
def phaseStart : Priority → ℚ
  | .CRITICAL => 0
  | .HIGH => 20
  | .MEDIUM => 40
  | .LOW => 60

/-- Modelled from the spec: the end of the recovery phase gating a
priority tier, twenty progress points past its start. -/
def phaseEnd : Priority → ℚ
  | .CRITICAL => 20
  | .HIGH => 40
  | .MEDIUM => 60
  | .LOW => 80

/-- Modelled from the spec: a zone's allocation at recovery progress g,
interpolating linearly from its planned target to 100 across the zone's
priority phase (Recovery Scheduler, missing backend module). -/
def allocAt (p : Priority) (t g : ℚ) : ℚ :=
  if g ≤ phaseStart p then t
  else if phaseEnd p ≤ g then 100
  else t + (100 - t) * (g - phaseStart p) / 20

/-- Modelled from the spec: incident status as a function of recovery
progress; RECOVERING from the first positive progress, RESOLVED from
progress 100 (Recovery Scheduler, missing backend module). -/
def statusFor (g : ℚ) : IStatus :=
  if 100 ≤ g then .RESOLVED
  else if 0 < g then .RECOVERING
  else .ACTIVE

/-- Modelled from the spec: one tick of the per-incident recovery task at
progress g (Recovery Scheduler, missing backend module).  A resolved or
cancelled incident receives no further updates; manually frozen zones are
skipped; every other affected zone is moved to its phase-interpolated
allocation, and the incident's status follows the progress value. -/
def tick (now iid : ℕ) (g : ℚ) (s : Sys) : Sys :=
  match findInc iid s with
  | none => s
  | some inc =>
    if inc.status = .RESOLVED ∨ inc.taskRunning = false then s
    else
      { zones := s.zones.map (fun z =>
          if z.id ∈ inc.affected ∧ z.frozen = false then
            setAlloc (allocAt z.priority (targetPercent z.priority inc.severity) g) z
          else z)
        incidents := s.incidents.map (fun i =>
          if i.iid = iid then
            { i with status := statusFor g, progress := g
                     resolvedAt := if 100 ≤ g then some now else i.resolvedAt
                     taskRunning := if 100 ≤ g then false else true }
          else i) }

/-- Modelled from the spec: the Incident Manager's manual_allocate
operation (missing backend module).  Rejects an absent or already resolved
incident with UnknownIncident, and any out-of-range percent or
non-affected zone id with InvalidRequest, before any state change;
otherwise applies the requested percents immediately and freezes those
zones against scheduler updates. -/
def manualAllocate (iid : ℕ) (allocs : List (String × ℚ)) (s : Sys) :
    Except Err Sys :=
  match findInc iid s with
  | none => .error .UnknownIncident
  | some inc =>
    if inc.status = .RESOLVED then .error .UnknownIncident
    else if ∀ a ∈ allocs, 0 ≤ a.2 ∧ a.2 ≤ 100 ∧ a.1 ∈ inc.affected then
      .ok
        { s with zones := s.zones.map (fun z =>
            match allocs.find? (fun a => a.1 == z.id) with
            | some a => { setAlloc a.2 z with frozen := true }
            | none => z) }
    else .error .InvalidRequest

/-- Modelled from the spec: the Incident Manager's resolve operation
(missing backend module).  UnknownIncident when absent; success without
state change when already RESOLVED; otherwise restores every affected zone
to 100 percent FULL_POWER, marks the incident RESOLVED with its
resolution time, and stops the recovery task. -/
def resolve (now iid : ℕ) (s : Sys) : Except Err Sys :=
  match findInc iid s with
  | none => .error .UnknownIncident
  | some inc =>
    if inc.status = .RESOLVED then .ok s
    else
      .ok
        { zones := s.zones.map (fun z =>
            if z.id ∈ inc.affected then
              { setAlloc 100 z with frozen := false }
            else z)
          incidents := s.incidents.map (fun i =>
            if i.iid = iid then
              { i with status := .RESOLVED, resolvedAt := some now
                       taskRunning := false }
            else i) }

/-- Run an Incident Manager operation against a state: an accepted call
commits the new state, a rejected call leaves the old state in place. -/
def runOp (r : Except Err Sys) (s : Sys) : Sys :=
  match r with
  | .ok s₁ => s₁
  | .error _ => s

end Blackout

namespace Frontend

/-- A power zone entry as the blackout dashboard client keeps it
(src/frontend frontend code, interface PowerZone); the fields relevant to
the zone-merge handlers. -/
structure PZone where
  id : String
  name : String
  power_state : String
  power_allocation_percent : ℚ
deriving DecidableEq, Repr

/-- The blackout dashboard state (interface BlackoutDashboardData in
src/unnamed/part_008). -/
structure BDash where
  zones : List PZone
  active_incidents : List String
  total_grid_capacity_mw : ℚ
  current_grid_load_mw : ℚ
  available_backup_mw : ℚ
  grid_health_score : ℚ
deriving DecidableEq, Repr

/-- The zone-merge of the recovery_progress and manual_allocation handlers
in BlackoutPage's websocket onmessage (src/unnamed/part_008 lines 103-129,
src/unnamed/part_007 lines 525-554): map over the previous zone list,
replacing a zone by the first message zone with the same id when one
exists and keeping the zone otherwise. -/
def mergeZones (msgZones : List PZone) (prev : List PZone) : List PZone :=
  prev.map (fun zone =>
    match msgZones.find? (fun u => u.id == zone.id) with
    | some u => u
    | none => zone)

/-- The two websocket message types whose handlers patch the zone list in
place; each carries the optional data.zones payload. -/
inductive ZoneMsg
  | recovery_progress (dataZones : Option (List PZone))
  | manual_allocation (dataZones : Option (List PZone))
deriving DecidableEq, Repr

/-- The data.zones payload of a zone-delta message. -/
def ZoneMsg.zonesOf : ZoneMsg → Option (List PZone)
  | .recovery_progress dz => dz
  | .manual_allocation dz => dz

/-- The setDashboardData updater run by the recovery_progress and
manual_allocation branches of websocket.onmessage: no state change when
data.zones is absent, null stays null, and otherwise only the zones field
is rewritten through mergeZones. -/
def onZoneMsg (m : ZoneMsg) (prev : Option BDash) : Option BDash :=
  match m.zonesOf with
  | none => prev
  | some zs =>
    match prev with
    | none => none
    | some d => some { d with zones := mergeZones zs d.zones }

/-- The BlackoutSimulator component state feeding handleSimulate
(src/frontend/src/components/blackout/BlackoutSimulator.tsx). -/
structure SimulatorState where
  isSimulating : Bool
  cause : String
  severity : String
  selectedZones : List String
  capacityLost : ℚ
  weatherCondition : String
deriving DecidableEq, Repr

/-- The JSON body handleSimulate posts to the simulate endpoint. -/
structure SimRequestBody where
  cause : String
  severity : String
  affected_zones : List String
  capacity_lost_percent : ℚ
  weather_condition : Option String
deriving DecidableEq, Repr

/-- handleSimulate (BlackoutSimulator.tsx lines 58-88): returns early with
no network call when no zone is selected, and otherwise posts a body whose
weather_condition is the selected condition or null when the empty-string
sentinel option is selected. -/
def handleSimulate (st : SimulatorState) : Option SimRequestBody :=
  if st.selectedZones.length = 0 then none
  else some
    { cause := st.cause
      severity := st.severity
      affected_zones := st.selectedZones
      capacity_lost_percent := st.capacityLost
      weather_condition :=
        if st.weatherCondition = "" then none else some st.weatherCondition }

/-- The disabled attribute of the Initiate Blackout button
(BlackoutSimulator.tsx lines 249-257). -/
def simulateButtonDisabled (st : SimulatorState) : Bool :=
  st.isSimulating || st.selectedZones.length == 0

end Frontend

namespace Blackout

/-- A CRITICAL test zone with backup, fully powered. -/
def zHospital : Zone :=
  { id := "hospital", priority := .CRITICAL, backupAvailable := true
    alloc := 100, powerState := .FULL_POWER, frozen := false }

/-- A LOW-priority test zone without backup, fully powered. -/
def zHouses : Zone :=
  { id := "houses", priority := .LOW, backupAvailable := false
    alloc := 100, powerState := .FULL_POWER, frozen := false }

/-- A healthy two-zone starting state with no incidents. -/
def sysEx : Sys := { zones := [zHospital, zHouses], incidents := [] }

/-- The state after simulating a MODERATE grid-failure incident over both
test zones. -/
def sysExA : Sys :=
  runOp (simulate 1 .grid_failure .MODERATE ["hospital", "houses"] sysEx) sysEx

/-- The state after manually allocating 30 percent to the CRITICAL test
zone of the active incident. -/
def sysExB : Sys :=
  runOp (manualAllocate 1 [("hospital", 30)] sysExA) sysExA

/-- The state after a recovery tick of the test incident at progress 90. -/
def sysT : Sys := tick 7 1 90 sysExA

/-- The state after simulating a MINOR equipment failure over the
LOW-priority test zone only. -/
def sysExM : Sys :=
  runOp (simulate 2 .equipment_failure .MINOR ["houses"] sysEx) sysEx

end Blackout

namespace Frontend

/-- A concrete simulator state with one selected zone and no weather
condition chosen. -/
def stEx : SimulatorState :=
  { isSimulating := false, cause := "grid_failure", severity := "MODERATE"
    selectedZones := ["zone_a"], capacityLost := 50, weatherCondition := "" }

/-- The request body handleSimulate produces from stEx. -/
def reqEx : SimRequestBody :=
  { cause := "grid_failure", severity := "MODERATE"
    affected_zones := ["zone_a"], capacity_lost_percent := 50
    weather_condition := none }

/-- A concrete two-zone dashboard state. -/
def dEx : BDash :=
  { zones :=
      [ { id := "hospital", name := "Hospital Zone", power_state := "FULL_POWER"
          power_allocation_percent := 100 }
      , { id := "houses", name := "Residential", power_state := "REDUCED_POWER"
          power_allocation_percent := 20 } ]
    active_incidents := ["BLK-1"], total_grid_capacity_mw := 500
    current_grid_load_mw := 300, available_backup_mw := 80
    grid_health_score := 70 }

/-- A concrete recovery_progress payload updating only the residential
zone. -/
def msgZonesEx : List PZone :=
  [ { id := "houses", name := "Residential", power_state := "REDUCED_POWER"
      power_allocation_percent := 55 } ]

end Frontend

namespace Blackout

/-- The planner target never exceeds 100 percent. -/
theorem targetPercent_le_100 (p : Priority) (sv : Severity) :
    targetPercent p sv ≤ 100 := by
  cases p <;> cases sv <;> decide

/-- The planner target of a CRITICAL zone is always exactly 100. -/
theorem targetPercent_critical (sv : Severity) :
    targetPercent .CRITICAL sv = 100 := by
  cases sv <;> decide

/-- Each recovery phase ends twenty progress points after it starts. -/
theorem phaseEnd_eq (p : Priority) : phaseEnd p = phaseStart p + 20 := by
  cases p <;> norm_num [phaseStart, phaseEnd]

/-- Phase interpolation from a target of 100 stays at 100. -/
theorem allocAt_const_100 (p : Priority) (g : ℚ) : allocAt p 100 g = 100 := by
  unfold allocAt
  split_ifs with h1 h2 <;> ring_nf

/-- Phase interpolation is monotone in recovery progress for targets at or
below 100. -/
theorem allocAt_mono (p : Priority) (t g₁ g₂ : ℚ) (ht : t ≤ 100)
    (h : g₁ ≤ g₂) : allocAt p t g₁ ≤ allocAt p t g₂ := by
  have h20 : (0:ℚ) < 20 := by norm_num
  unfold allocAt
  rw [phaseEnd_eq]
  split_ifs with h1 h2 h3 h4 h5 h6 h7 h8 <;>
    first
    | rfl
    | linarith
    | (have hnn : (0:ℚ) ≤ (100 - t) * (g₂ - phaseStart p) / 20 :=
        div_nonneg (mul_nonneg (by linarith) (by linarith)) (by norm_num)
       linarith)
    | (have hub : (100 - t) * (g₁ - phaseStart p) / 20 ≤ 100 - t := by
        rw [div_le_iff₀ h20]
        nlinarith
       linarith)
    | (have hmono : (100 - t) * (g₁ - phaseStart p) / 20 ≤
          (100 - t) * (g₂ - phaseStart p) / 20 := by
        gcongr <;> linarith
       linarith)

/-- Phase interpolation ends at exactly 100 once progress reaches 80. -/
theorem allocAt_done (p : Priority) (t g : ℚ) (h : 80 ≤ g) :
    allocAt p t g = 100 := by
  have hp : phaseEnd p ≤ g := by
    cases p <;> simp only [phaseEnd] <;> linarith
  have hps : phaseStart p ≤ 60 := by
    cases p <;> simp only [phaseStart] <;> norm_num
  unfold allocAt
  split_ifs with h1 h2 <;> first | rfl | linarith

/-- Mapping a predicate-preserving function commutes with find?. -/
theorem find?_map_congr {α : Type} (p : α → Bool) (f : α → α)
    (hp : ∀ a, p (f a) = p a) (l : List α) :
    (l.map f).find? p = (l.find? p).map f := by
  induction l with
  | nil => rfl
  | cons a tl ih =>
    cases h : p a with
    | false =>
      rw [List.map_cons, List.find?_cons_of_neg _ (by simp [hp, h]),
        List.find?_cons_of_neg _ (by simp [h]), ih]
    | true =>
      rw [List.map_cons, List.find?_cons_of_pos _ (by simp [hp, h]),
        List.find?_cons_of_pos _ h]
      rfl

/-- C1: for every simulated incident and every zone in its affected_zones,
the Allocation Planner's target_percent equals the severity target clamped
between the priority floor and ceiling, where the severity targets are
MINOR 90, MODERATE 65, MAJOR 35, CATASTROPHIC 10, CRITICAL zones always
resolve to exactly 100, HIGH zones resolve to the maximum of 70 and the
severity target, MEDIUM zones are ceilinged at 40, and LOW zones are
ceilinged at 20. -/
theorem C1_allocation_targets :
    (∀ p sv, targetPercent p sv =
        clampQ (severityTarget sv) (priorityFloor p) (priorityCeiling p))
  ∧ (severityTarget .MINOR = 90 ∧ severityTarget .MODERATE = 65 ∧
      severityTarget .MAJOR = 35 ∧ severityTarget .CATASTROPHIC = 10)
  ∧ (∀ sv, targetPercent .CRITICAL sv = 100)
  ∧ (∀ sv, targetPercent .HIGH sv = max 70 (severityTarget sv))
  ∧ (∀ sv, targetPercent .MEDIUM sv = min (severityTarget sv) 40)
  ∧ (∀ sv, targetPercent .LOW sv = min (severityTarget sv) 20)
  ∧ (∀ iid c sv affected s s₁, simulate iid c sv affected s = .ok s₁ →
      ∀ z ∈ s₁.zones, z.id ∈ affected →
        z.alloc = clampQ (severityTarget sv) (priorityFloor z.priority)
          (priorityCeiling z.priority)) := by
  refine ⟨fun p sv => rfl, ⟨rfl, rfl, rfl, rfl⟩, ?_, ?_, ?_, ?_, ?_⟩
  · intro sv; cases sv <;> decide
  · intro sv; cases sv <;> decide
  · intro sv; cases sv <;> decide
  · intro sv; cases sv <;> decide
  · intro iid c sv affected s s₁ hok z hz hzid
    unfold simulate at hok
    by_cases h1 : affected = []
    · rw [if_pos h1] at hok
      exact absurd hok (by simp)
    · rw [if_neg h1] at hok
      by_cases h2 : ∀ zid ∈ affected, ∃ z ∈ s.zones, z.id = zid
      · rw [if_pos h2] at hok
        simp only [Except.ok.injEq] at hok
        subst hok
        simp only [List.mem_map] at hz
        obtain ⟨z₀, hz₀, rfl⟩ := hz
        by_cases hm : z₀.id ∈ affected
        · simp [hm, setAlloc, targetPercent]
        · simp [hm] at hzid
      · rw [if_neg h2] at hok
        exact absurd hok (by simp)

/-- Witness for C1 at a concrete run: simulating a MINOR equipment failure
on the LOW-priority test zone leaves it at the clamped target. -/
theorem C1_allocation_targets_witness :
    (sysExM.zones.get ⟨1, by decide⟩).alloc =
      clampQ (severityTarget .MINOR)
        (priorityFloor (sysExM.zones.get ⟨1, by decide⟩).priority)
        (priorityCeiling (sysExM.zones.get ⟨1, by decide⟩).priority) :=
  C1_allocation_targets.2.2.2.2.2.2 2 .equipment_failure .MINOR ["houses"]
    sysEx sysExM rfl (sysExM.zones.get ⟨1, by decide⟩) (by decide) (by decide)

/-- C3: for every input, the Cascade Risk Analyzer returns exactly the
clamp into the unit interval of the severity base risk plus a tenth of the
capped affected-zone fraction plus 0.15 for a cyber_attack or
weather_damage cause plus a tenth of the grid-health deficit; out-of-range
inputs are clamped, never rejected. -/
theorem C3_cascade_risk_formula :
    ∀ (sv : Severity) (a t : ℕ) (c : Cause) (h : ℚ),
      cascadeRisk sv a t c h =
        clampQ ((if sv = .MINOR then (0.05:ℚ)
                 else if sv = .MODERATE then 0.25
                 else if sv = .MAJOR then 0.55 else 0.80)
          + 0.10 * min ((a:ℚ) / (t:ℚ)) 1
          + (if c = .cyber_attack ∨ c = .weather_damage then (0.15:ℚ) else 0)
          + 0.10 * (1 - h / 100)) 0 1 := by
  intro sv a t c h
  cases sv <;> cases c <;> norm_num +decide [cascadeRisk, baseRisk, causeFragile]

/-- C8: for every input the computed cascade risk lies in the unit
interval, and holding the other inputs fixed it is monotone non-decreasing
in severity rank. -/
theorem C8_risk_bounds_monotone :
    ∀ (a t : ℕ) (c : Cause) (h : ℚ),
      (∀ sv, 0 ≤ cascadeRisk sv a t c h ∧ cascadeRisk sv a t c h ≤ 1)
    ∧ (∀ sv₁ sv₂, sevRank sv₁ ≤ sevRank sv₂ →
        cascadeRisk sv₁ a t c h ≤ cascadeRisk sv₂ a t c h) := by
  intro a t c h
  constructor
  · intro sv
    unfold cascadeRisk clampQ
    exact ⟨le_max_left 0 _, max_le (by norm_num) (min_le_right _ 1)⟩
  · intro sv₁ sv₂ hr
    have hb : baseRisk sv₁ ≤ baseRisk sv₂ := by
      cases sv₁ <;> cases sv₂ <;>
        first
        | (exact absurd hr (by decide))
        | norm_num [baseRisk]
    unfold cascadeRisk clampQ
    exact max_le_max le_rfl (min_le_min (by linarith) le_rfl)

/-- Witness for C8 at concrete inputs: risk is monotone from MINOR to
MAJOR on a fixed grid picture. -/
theorem C8_risk_bounds_monotone_witness :
    cascadeRisk .MINOR 1 8 .grid_failure 90 ≤
      cascadeRisk .MAJOR 1 8 .grid_failure 90 :=
  (C8_risk_bounds_monotone 1 8 .grid_failure 90).2 .MINOR .MAJOR (by decide)

/-- C4: every defined weather condition multiplies the recovery estimate
by exactly its table multiplier, clear 1.0, rain 1.1, heatwave 1.3, storm
1.5, flooding 1.7, cyclone 2.0; an unknown condition maps to multiplier
1.0 and is never fatal, and the adjusted hours equal the previous hours
times the multiplier exactly. -/
theorem C4_weather_multiplier :
    (weatherMultiplier "clear" = 1 ∧ weatherMultiplier "rain" = 11/10 ∧
      weatherMultiplier "heatwave" = 13/10 ∧ weatherMultiplier "storm" = 3/2 ∧
      weatherMultiplier "flooding" = 17/10 ∧ weatherMultiplier "cyclone" = 2)
  ∧ (∀ c, c ≠ "clear" → c ≠ "rain" → c ≠ "heatwave" → c ≠ "storm" →
      c ≠ "flooding" → c ≠ "cyclone" → weatherMultiplier c = 1)
  ∧ (∀ c hours risk, (applyWeather c hours risk).estimated_recovery_hours
      = hours * weatherMultiplier c) := by
  refine ⟨⟨rfl, rfl, rfl, rfl, rfl, rfl⟩, ?_, fun c hours risk => rfl⟩
  intro c h1 h2 h3 h4 h5 h6
  simp [weatherMultiplier, h1, h2, h3, h4, h5, h6]

/-- Witness for C4 at concrete inputs: an unlisted condition keeps
multiplier 1, and a storm multiplies 12 hours to 18. -/
theorem C4_weather_multiplier_witness :
    weatherMultiplier "drizzle" = 1 ∧
    (applyWeather "storm" 12 (1/2)).estimated_recovery_hours =
      12 * weatherMultiplier "storm" :=
  ⟨C4_weather_multiplier.2.1 "drizzle" (by decide) (by decide) (by decide)
      (by decide) (by decide) (by decide),
    C4_weather_multiplier.2.2 "storm" 12 (1/2)⟩

end Blackout

namespace Frontend

/-- C10: every simulate request the BlackoutSimulator UI sends has a
non-empty affected_zones array, handleSimulate returning early with no
network call when no zone is selected and the submit button being disabled
then; its weather_condition is null, never the empty string, when no
condition is selected; hence the server's InvalidRequest branch for empty
affected_zones is unreachable from this client. -/
theorem C10_simulator_guard :
    ∀ st : SimulatorState,
      (handleSimulate st = none ↔ st.selectedZones = [])
    ∧ (∀ req, handleSimulate st = some req →
        req.affected_zones ≠ []
        ∧ req.weather_condition ≠ some ""
        ∧ (st.weatherCondition = "" → req.weather_condition = none)
        ∧ ∀ iid c sv s, Blackout.simulate iid c sv req.affected_zones s ≠
            .error .InvalidRequest)
    ∧ (st.selectedZones = [] → simulateButtonDisabled st = true) := by
  intro st
  refine ⟨?_, ?_, ?_⟩
  · unfold handleSimulate
    by_cases h : st.selectedZones.length = 0
    · simp [h, List.length_eq_zero.mp h]
    · simp only [h, if_false]
      constructor
      · intro hc
        exact absurd hc (by simp)
      · intro hc
        exact absurd (hc ▸ h) (by simp)
  · intro req hreq
    unfold handleSimulate at hreq
    by_cases h : st.selectedZones.length = 0
    · rw [if_pos h] at hreq
      exact absurd hreq (by simp)
    · rw [if_neg h] at hreq
      simp only [Option.some.injEq] at hreq
      subst hreq
      have hne : st.selectedZones ≠ [] := by
        intro hc
        exact h (by simp [hc])
      refine ⟨hne, ?_, ?_, ?_⟩
      · by_cases hw : st.weatherCondition = ""
        · simp [hw]
        · simp [hw]
      · intro hw
        simp [hw]
      · intro iid c sv s
        unfold Blackout.simulate
        rw [if_neg hne]
        by_cases hz : ∀ zid ∈ st.selectedZones, ∃ z ∈ s.zones, z.id = zid
        · rw [if_pos hz]
          simp
        · rw [if_neg hz]
          simp
  · intro h
    simp [simulateButtonDisabled, h]

/-- Witness for C10 at the concrete simulator state stEx with one
selected zone and the empty weather sentinel. -/
theorem C10_simulator_guard_witness :
    reqEx.affected_zones ≠ [] ∧ reqEx.weather_condition = none :=
  ⟨((C10_simulator_guard stEx).2.1 reqEx rfl).1,
    ((C10_simulator_guard stEx).2.1 reqEx rfl).2.2.1 rfl⟩

/-- C9: for every recovery_progress or manual_allocation websocket
message, the blackout dashboard updates its zone list by replacing exactly
the entries whose id appears in the message payload, keeps every other
entry identical, preserves the list's length and order, and leaves the
active incidents and grid capacity, load, backup and health fields
unchanged. -/
theorem C9_zone_merge_frame :
    ∀ m : ZoneMsg,
      (∀ d d₁ : BDash, onZoneMsg m (some d) = some d₁ →
          d₁.active_incidents = d.active_incidents
        ∧ d₁.total_grid_capacity_mw = d.total_grid_capacity_mw
        ∧ d₁.current_grid_load_mw = d.current_grid_load_mw
        ∧ d₁.available_backup_mw = d.available_backup_mw
        ∧ d₁.grid_health_score = d.grid_health_score
        ∧ d₁.zones.length = d.zones.length
        ∧ ∀ j (hj : j < d.zones.length) (hj₁ : j < d₁.zones.length),
            ((∀ u ∈ m.zonesOf.getD [], u.id ≠ (d.zones.get ⟨j, hj⟩).id) →
              d₁.zones.get ⟨j, hj₁⟩ = d.zones.get ⟨j, hj⟩)
          ∧ (∀ u, (m.zonesOf.getD []).find?
                (fun x => x.id == (d.zones.get ⟨j, hj⟩).id) = some u →
              d₁.zones.get ⟨j, hj₁⟩ = u))
    ∧ onZoneMsg m none = none := by
  intro m
  constructor
  · intro d d₁ hmsg
    unfold onZoneMsg at hmsg
    cases hzs : m.zonesOf with
    | none =>
      rw [hzs] at hmsg
      simp only [Option.some.injEq] at hmsg
      subst hmsg
      refine ⟨rfl, rfl, rfl, rfl, rfl, rfl, ?_⟩
      intro j hj hj₁
      refine ⟨fun _ => rfl, ?_⟩
      intro u hu
      simp at hu
    | some zs =>
      rw [hzs] at hmsg
      simp only [Option.some.injEq] at hmsg
      subst hmsg
      refine ⟨rfl, rfl, rfl, rfl, rfl, by simp [mergeZones], ?_⟩
      intro j hj hj₁
      constructor
      · intro hnone
        have hfind : zs.find? (fun u => u.id == (d.zones.get ⟨j, hj⟩).id)
            = none := by
          rw [List.find?_eq_none]
          intro u hu
          simp only [beq_iff_eq]
          exact hnone u (by simpa using hu)
        simp only [List.get_eq_getElem] at hfind
        simp [mergeZones, List.getElem_map, hfind]
      · intro u hu
        simp only [Option.getD] at hu
        simp only [List.get_eq_getElem] at hu
        simp [mergeZones, List.getElem_map, hu]
  · unfold onZoneMsg
    cases m.zonesOf <;> rfl

/-- Witness for C9 at a concrete dashboard state and recovery payload:
the residential zone entry is replaced and the hospital entry kept. -/
theorem C9_zone_merge_frame_witness :
    ((onZoneMsg (.recovery_progress (some msgZonesEx)) (some dEx)).getD
        dEx).active_incidents = dEx.active_incidents :=
  ((C9_zone_merge_frame (.recovery_progress (some msgZonesEx))).1 dEx
    ((onZoneMsg (.recovery_progress (some msgZonesEx)) (some dEx)).getD dEx)
    rfl).1

end Frontend

namespace Blackout

/-- Resolving a live incident leaves it findable, marked resolved. -/
theorem findInc_resolve (now iid : ℕ) (s : Sys) (inc : Incident)
    (h : findInc iid s = some inc) (hres : inc.status ≠ .RESOLVED)
    (s₁ : Sys) (hok : resolve now iid s = .ok s₁) :
    findInc iid s₁ =
      some { inc with
              status := IStatus.RESOLVED
              resolvedAt := some now
              taskRunning := false } := by
  unfold resolve at hok
  simp only [h, hres, if_false, Except.ok.injEq] at hok
  subst hok
  unfold findInc
  dsimp only
  rw [find?_map_congr (fun (i : Incident) => i.iid == iid)
    (fun (i : Incident) => if i.iid = iid then
        { i with
            status := IStatus.RESOLVED
            resolvedAt := some now
            taskRunning := false }
      else i)
    (by intro i; by_cases hi : i.iid = iid <;> simp [hi])]
  unfold findInc at h
  rw [h]
  have hiid : inc.iid = iid := by simpa using List.find?_some h
  simp [hiid]

/-- C6: resolve fails with UnknownIncident when the incident is absent;
when it is already RESOLVED it returns success and changes no state;
otherwise it sets every affected zone to 100 percent FULL_POWER, leaves
other zones untouched, marks the incident RESOLVED with resolved_at set
and the recovery task stopped; hence a second resolve on the same incident
returns the same terminal state with no error. -/
theorem C6_resolve_spec :
    ∀ (now now₂ iid : ℕ) (s : Sys),
      (findInc iid s = none → resolve now iid s = .error .UnknownIncident)
    ∧ (∀ inc, findInc iid s = some inc → inc.status = .RESOLVED →
        resolve now iid s = .ok s)
    ∧ (∀ inc, findInc iid s = some inc → inc.status ≠ .RESOLVED →
        ∃ s₁, resolve now iid s = .ok s₁
          ∧ (∀ z ∈ s₁.zones, z.id ∈ inc.affected →
              z.alloc = 100 ∧ z.powerState = .FULL_POWER)
          ∧ (∀ z ∈ s₁.zones, z.id ∉ inc.affected → z ∈ s.zones)
          ∧ (∀ i ∈ s₁.incidents, i.iid = iid →
              i.status = .RESOLVED ∧ i.resolvedAt = some now ∧
                i.taskRunning = false))
    ∧ (∀ s₁, resolve now iid s = .ok s₁ → resolve now₂ iid s₁ = .ok s₁) := by
  intro now now₂ iid s
  refine ⟨?_, ?_, ?_, ?_⟩
  · intro h
    unfold resolve
    rw [h]
  · intro inc h hres
    unfold resolve
    rw [h]
    simp [hres]
  · intro inc h hres
    unfold resolve
    rw [h]
    simp only [hres, if_false]
    refine ⟨_, rfl, ?_, ?_, ?_⟩
    · intro z hz hzid
      simp only [List.mem_map] at hz
      obtain ⟨z₀, hz₀, rfl⟩ := hz
      by_cases hm : z₀.id ∈ inc.affected
      · rw [if_pos hm]
        exact ⟨rfl, by simp [setAlloc, stateFor]⟩
      · rw [if_neg hm] at hzid ⊢
        exact absurd hzid hm
    · intro z hz hzid
      simp only [List.mem_map] at hz
      obtain ⟨z₀, hz₀, rfl⟩ := hz
      by_cases hm : z₀.id ∈ inc.affected
      · rw [if_pos hm] at hzid
        simp [setAlloc] at hzid
        exact absurd hm hzid
      · rw [if_neg hm]
        exact hz₀
    · intro i hi hiid
      simp only [List.mem_map] at hi
      obtain ⟨i₀, hi₀, rfl⟩ := hi
      by_cases hm : i₀.iid = iid
      · rw [if_pos hm]
        exact ⟨rfl, rfl, rfl⟩
      · rw [if_neg hm] at hiid ⊢
        exact absurd hiid hm
  · intro s₁ hok
    rcases h : findInc iid s with _ | inc
    · unfold resolve at hok
      rw [h] at hok
      exact absurd hok (by simp)
    · by_cases hres : inc.status = .RESOLVED
      · unfold resolve at hok
        simp only [h, hres, if_true, Except.ok.injEq] at hok
        subst hok
        unfold resolve
        simp [h, hres]
      · have hf₁ := findInc_resolve now iid s inc h hres s₁ hok
        unfold resolve
        simp [hf₁]

/-- Witness for C6 at the concrete active incident of sysExA: resolving
twice gives the same state and no error on the second call. -/
theorem C6_resolve_spec_witness :
    resolve 9 1 (runOp (resolve 9 1 sysExA) sysExA) =
      .ok (runOp (resolve 9 1 sysExA) sysExA) :=
  (C6_resolve_spec 9 9 1 sysExA).2.2.2 (runOp (resolve 9 1 sysExA) sysExA) rfl

/-- A recovery tick of a live incident updates unfrozen affected zones to
their phase-interpolated allocation and advances the incident record. -/
theorem tick_live (now iid : ℕ) (g : ℚ) (s : Sys) (inc : Incident)
    (hf : findInc iid s = some inc) (hres : inc.status ≠ .RESOLVED)
    (htask : inc.taskRunning = true) :
    tick now iid g s =
      { zones := s.zones.map (fun z =>
          if z.id ∈ inc.affected ∧ z.frozen = false then
            setAlloc (allocAt z.priority (targetPercent z.priority inc.severity) g) z
          else z)
        incidents := s.incidents.map (fun i =>
          if i.iid = iid then
            { i with status := statusFor g, progress := g
                     resolvedAt := if 100 ≤ g then some now else i.resolvedAt
                     taskRunning := if 100 ≤ g then false else true }
          else i) } := by
  have hcond : ¬(inc.status = IStatus.RESOLVED ∨ inc.taskRunning = false) := by
    rintro (hc | hc)
    · exact hres hc
    · rw [htask] at hc
      exact absurd hc (by decide)
  unfold tick
  simp only [hf, hcond, if_false]

/-- A recovery tick with no live incident for the id is a no-op. -/
theorem tick_noop (now iid : ℕ) (g : ℚ) (s : Sys)
    (h : findInc iid s = none ∨ ∃ inc, findInc iid s = some inc ∧
      (inc.status = .RESOLVED ∨ inc.taskRunning = false)) :
    tick now iid g s = s := by
  rcases h with h | ⟨inc, hf, hcond⟩
  · unfold tick
    simp only [h]
  · unfold tick
    simp only [hf, hcond, if_true]

/-- After a live tick, the incident is still findable with its status and
progress advanced. -/
theorem findInc_tick_live (now iid : ℕ) (g : ℚ) (s : Sys) (inc : Incident)
    (hf : findInc iid s = some inc) (hres : inc.status ≠ .RESOLVED)
    (htask : inc.taskRunning = true) :
    findInc iid (tick now iid g s) =
      some { inc with
              status := statusFor g
              progress := g
              resolvedAt := if 100 ≤ g then some now else inc.resolvedAt
              taskRunning := if 100 ≤ g then false else true } := by
  rw [tick_live now iid g s inc hf hres htask]
  unfold findInc
  dsimp only
  rw [find?_map_congr (fun (i : Incident) => i.iid == iid)
    (fun (i : Incident) => if i.iid = iid then
        { i with
            status := statusFor g
            progress := g
            resolvedAt := if 100 ≤ g then some now else i.resolvedAt
            taskRunning := if 100 ≤ g then false else true }
      else i)
    (by intro i; by_cases hi : i.iid = iid <;> simp [hi])]
  unfold findInc at hf
  rw [hf]
  have hiid : inc.iid = iid := by simpa using List.find?_some hf
  simp [hiid]

/-- C2 counterexample: from a healthy state, simulate an incident over the
CRITICAL hospital zone, then manually allocate it 30 percent; the call is
accepted, the incident is still ACTIVE with backup available, yet the
CRITICAL zone's allocation is 30, not 100. -/
theorem C2_critical_counterexample :
    manualAllocate 1 [("hospital", 30)] sysExA = .ok sysExB
  ∧ findInc 1 sysExB =
      some { iid := 1, cause := .grid_failure, severity := .MODERATE
             affected := ["hospital", "houses"], status := .ACTIVE
             progress := 0, resolvedAt := none, taskRunning := true }
  ∧ (sysExB.zones.get ⟨0, by decide⟩).priority = .CRITICAL
  ∧ (sysExB.zones.get ⟨0, by decide⟩).backupAvailable = true
  ∧ (sysExB.zones.get ⟨0, by decide⟩).id ∈ ["hospital", "houses"]
  ∧ (sysExB.zones.get ⟨0, by decide⟩).alloc = 30
  ∧ (sysExB.zones.get ⟨0, by decide⟩).alloc ≠ 100 :=
  ⟨rfl, rfl, rfl, rfl, by decide, rfl, by decide⟩

/-- C2 (amended): at plan application and after every recovery tick of a
live incident, every affected CRITICAL zone not under a manual-allocation
freeze has power_allocation_percent exactly 100; a manual_allocate call
may set an affected CRITICAL zone to any percent in the valid range,
breaking the invariant until resolution or a superseding simulate. -/
theorem C2_critical_always_full :
    (∀ iid c sv affected s s₁,
        simulate iid c sv affected s = .ok s₁ →
        ∀ z ∈ s₁.zones, z.priority = .CRITICAL → z.id ∈ affected →
          z.alloc = 100)
  ∧ (∀ now iid g s inc, findInc iid s = some inc →
        inc.status ≠ .RESOLVED → inc.taskRunning = true →
        ∀ z ∈ (tick now iid g s).zones,
          z.priority = .CRITICAL → z.id ∈ inc.affected → z.frozen = false →
          z.alloc = 100) := by
  constructor
  · intro iid c sv affected s s₁ hok z hz hcrit hzid
    unfold simulate at hok
    by_cases h1 : affected = []
    · rw [if_pos h1] at hok
      exact absurd hok (by simp)
    · rw [if_neg h1] at hok
      by_cases h2 : ∀ zid ∈ affected, ∃ z ∈ s.zones, z.id = zid
      · rw [if_pos h2] at hok
        simp only [Except.ok.injEq] at hok
        subst hok
        simp only [List.mem_map] at hz
        obtain ⟨z₀, hz₀, rfl⟩ := hz
        by_cases hm : z₀.id ∈ affected
        · rw [if_pos hm] at hcrit ⊢
          simp only [setAlloc] at hcrit ⊢
          rw [hcrit]
          exact targetPercent_critical sv
        · rw [if_neg hm] at hzid
          exact absurd hzid hm
      · rw [if_neg h2] at hok
        exact absurd hok (by simp)
  · intro now iid g s inc hf hres htask z hz hcrit hzid hfro
    rw [tick_live now iid g s inc hf hres htask] at hz
    simp only [List.mem_map] at hz
    obtain ⟨z₀, hz₀, rfl⟩ := hz
    by_cases hm : z₀.id ∈ inc.affected ∧ z₀.frozen = false
    · rw [if_pos hm] at hcrit ⊢
      simp only [setAlloc] at hcrit ⊢
      rw [hcrit, targetPercent_critical, allocAt_const_100]
    · rw [if_neg hm] at hzid hfro
      exact absurd ⟨hzid, hfro⟩ hm

/-- Witness for C2 at the concrete simulated incident of sysExA: the
CRITICAL hospital zone sits at 100 percent after plan application. -/
theorem C2_critical_always_full_witness :
    (sysExA.zones.get ⟨0, by decide⟩).alloc = 100 :=
  C2_critical_always_full.1 1 .grid_failure .MODERATE ["hospital", "houses"]
    sysEx sysExA rfl (sysExA.zones.get ⟨0, by decide⟩) (by decide) (by decide)
    (by decide)

/-- C5 counterexample: in the test incident at recovery progress 90 every
affected zone already sits at 100 percent, yet the incident's status is
RECOVERING, not RESOLVED; allocations reach 100 strictly before the
status becomes RESOLVED. -/
theorem C5_counterexample_full_before_resolved :
    (sysT.zones.get ⟨0, by decide⟩).alloc = 100
  ∧ (sysT.zones.get ⟨1, by decide⟩).alloc = 100
  ∧ (sysT.zones.get ⟨0, by decide⟩).id ∈ ["hospital", "houses"]
  ∧ (sysT.zones.get ⟨1, by decide⟩).id ∈ ["hospital", "houses"]
  ∧ sysT.zones.length = 2
  ∧ (findInc 1 sysT).map Incident.status = some .RECOVERING
  ∧ (findInc 1 sysT).map Incident.status ≠ some .RESOLVED := by
  refine ⟨rfl, rfl, by decide, by decide, rfl, rfl, ?_⟩
  intro hc
  rw [show (findInc 1 sysT).map Incident.status = some IStatus.RECOVERING
    from rfl] at hc
  simp at hc

/-- C5 (amended): with no manual override, each affected zone's
allocation is non-decreasing across successive recovery ticks with
non-decreasing progress; after a live tick the incident's status and
progress follow the progress value, ACTIVE up to progress 0, RECOVERING
once progress exceeds 0 and RESOLVED from progress 100; and at any tick
with progress at least 100 every unfrozen affected zone is at exactly
100, though a zone may reach 100 strictly before resolution. -/
theorem C5_recovery_monotone_and_status :
    (∀ now₁ now₂ iid g₁ g₂ s, g₁ ≤ g₂ →
        List.Forall₂ (fun z₁ z₂ => z₁.alloc ≤ z₂.alloc)
          (tick now₁ iid g₁ s).zones
          (tick now₂ iid g₂ (tick now₁ iid g₁ s)).zones)
  ∧ (∀ now iid g s inc, findInc iid s = some inc →
        inc.status ≠ .RESOLVED → inc.taskRunning = true →
        ∀ i ∈ (tick now iid g s).incidents, i.iid = iid →
          i.status = statusFor g ∧ i.progress = g)
  ∧ (∀ g : ℚ, (100 ≤ g → statusFor g = .RESOLVED)
        ∧ (0 < g → ¬ 100 ≤ g → statusFor g = .RECOVERING)
        ∧ (g ≤ 0 → statusFor g = .ACTIVE))
  ∧ (∀ now iid g s inc, findInc iid s = some inc →
        inc.status ≠ .RESOLVED → inc.taskRunning = true → 100 ≤ g →
        ∀ z ∈ (tick now iid g s).zones,
          z.id ∈ inc.affected → z.frozen = false → z.alloc = 100) := by
  refine ⟨?_, ?_, ?_, ?_⟩
  · intro now₁ now₂ iid g₁ g₂ s h12
    rcases hf : findInc iid s with _ | inc
    · rw [tick_noop now₁ iid g₁ s (Or.inl hf),
        tick_noop now₂ iid g₂ s (Or.inl hf)]
      exact List.forall₂_same.mpr fun z _ => le_refl z.alloc
    · by_cases hdead : inc.status = .RESOLVED ∨ inc.taskRunning = false
      · rw [tick_noop now₁ iid g₁ s (Or.inr ⟨inc, hf, hdead⟩),
          tick_noop now₂ iid g₂ s (Or.inr ⟨inc, hf, hdead⟩)]
        exact List.forall₂_same.mpr fun z _ => le_refl z.alloc
      · have hres : inc.status ≠ .RESOLVED := fun hc => hdead (Or.inl hc)
        have htask : inc.taskRunning = true := by
          cases hb : inc.taskRunning
          · exact absurd (Or.inr hb) hdead
          · rfl
        have hτ := findInc_tick_live now₁ iid g₁ s inc hf hres htask
        by_cases hg : 100 ≤ g₁
        · rw [tick_noop now₂ iid g₂ (tick now₁ iid g₁ s)
            (Or.inr ⟨_, hτ, Or.inr (by simp [hg])⟩)]
          exact List.forall₂_same.mpr fun z _ => le_refl z.alloc
        · have hstat1 : statusFor g₁ ≠ .RESOLVED := by
            unfold statusFor
            rw [if_neg hg]
            split_ifs <;> simp
          have e2 := tick_live now₂ iid g₂ (tick now₁ iid g₁ s) _ hτ
            (by simpa using hstat1) (by simp [hg])
          rw [e2]
          dsimp only
          rw [List.forall₂_map_right_iff, List.forall₂_same]
          intro z hz
          rw [tick_live now₁ iid g₁ s inc hf hres htask] at hz
          dsimp only at hz
          simp only [List.mem_map] at hz
          obtain ⟨z₀, hz₀, rfl⟩ := hz
          by_cases hm : z₀.id ∈ inc.affected ∧ z₀.frozen = false
          · rw [if_pos hm]
            simp only [setAlloc]
            rw [if_pos hm]
            exact allocAt_mono _ _ _ _ (targetPercent_le_100 _ _) h12
          · rw [if_neg hm]
            simp only [setAlloc]
            rw [if_neg hm]
  · intro now iid g s inc hf hres htask i hi hiid
    rw [tick_live now iid g s inc hf hres htask] at hi
    dsimp only at hi
    simp only [List.mem_map] at hi
    obtain ⟨i₀, hi₀, rfl⟩ := hi
    by_cases hm : i₀.iid = iid
    · rw [if_pos hm]
      exact ⟨rfl, rfl⟩
    · rw [if_neg hm] at hiid
      exact absurd hiid hm
  · intro g
    refine ⟨?_, ?_, ?_⟩
    · intro h100
      unfold statusFor
      rw [if_pos h100]
    · intro h0 h100
      unfold statusFor
      rw [if_neg h100, if_pos h0]
    · intro hle
      have h100 : ¬ (100:ℚ) ≤ g := by linarith
      have h0 : ¬ (0:ℚ) < g := by linarith
      unfold statusFor
      rw [if_neg h100, if_neg h0]
  · intro now iid g s inc hf hres htask hg z hz hzid hfro
    rw [tick_live now iid g s inc hf hres htask] at hz
    dsimp only at hz
    simp only [List.mem_map] at hz
    obtain ⟨z₀, hz₀, rfl⟩ := hz
    by_cases hm : z₀.id ∈ inc.affected ∧ z₀.frozen = false
    · rw [if_pos hm]
      simp only [setAlloc]
      exact allocAt_done _ _ _ (by linarith)
    · rw [if_neg hm] at hzid hfro
      exact absurd ⟨hzid, hfro⟩ hm

/-- Witness for C5 on the concrete test incident: allocations are
pointwise non-decreasing from the tick at progress 30 to the following
tick at progress 55. -/
theorem C5_recovery_monotone_and_status_witness :
    List.Forall₂ (fun z₁ z₂ => z₁.alloc ≤ z₂.alloc)
      (tick 2 1 30 sysExA).zones
      (tick 3 1 55 (tick 2 1 30 sysExA)).zones :=
  C5_recovery_monotone_and_status.1 2 3 1 30 55 sysExA (by norm_num)

/-- C7: simulate fails with UnknownZone when a requested zone id does not
exist and with InvalidRequest when affected_zones is empty;
manual_allocate fails with UnknownIncident when the incident is absent or
already RESOLVED and with InvalidRequest when any percent is out of range
or any zone id is outside the incident's affected zones; and every
rejected call leaves the state exactly unchanged. -/
theorem C7_validation :
    ∀ (iid : ℕ) (c : Cause) (sv : Severity) (affected : List String)
      (allocs : List (String × ℚ)) (s : Sys),
      (affected = [] → simulate iid c sv affected s = .error .InvalidRequest)
    ∧ (∀ zid ∈ affected, (∀ z ∈ s.zones, z.id ≠ zid) →
        simulate iid c sv affected s = .error .UnknownZone)
    ∧ (findInc iid s = none →
        manualAllocate iid allocs s = .error .UnknownIncident)
    ∧ (∀ inc, findInc iid s = some inc → inc.status = .RESOLVED →
        manualAllocate iid allocs s = .error .UnknownIncident)
    ∧ (∀ inc, findInc iid s = some inc → inc.status ≠ .RESOLVED →
        (∃ a ∈ allocs, ¬(0 ≤ a.2 ∧ a.2 ≤ 100 ∧ a.1 ∈ inc.affected)) →
        manualAllocate iid allocs s = .error .InvalidRequest)
    ∧ (∀ e, simulate iid c sv affected s = .error e →
        runOp (simulate iid c sv affected s) s = s)
    ∧ (∀ e, manualAllocate iid allocs s = .error e →
        runOp (manualAllocate iid allocs s) s = s) := by
  intro iid c sv affected allocs s
  refine ⟨?_, ?_, ?_, ?_, ?_, ?_, ?_⟩
  · intro h
    unfold simulate
    rw [if_pos h]
  · intro zid hzid hno
    have hne : affected ≠ [] := List.ne_nil_of_mem hzid
    have hnall : ¬ ∀ zid₂ ∈ affected, ∃ z ∈ s.zones, z.id = zid₂ := by
      intro hall
      obtain ⟨z, hz, hzeq⟩ := hall zid hzid
      exact hno z hz hzeq
    unfold simulate
    rw [if_neg hne, if_neg hnall]
  · intro h
    unfold manualAllocate
    rw [h]
  · intro inc h hres
    unfold manualAllocate
    rw [h]
    simp [hres]
  · intro inc h hres hbad
    have hnall : ¬ ∀ a ∈ allocs, 0 ≤ a.2 ∧ a.2 ≤ 100 ∧ a.1 ∈ inc.affected := by
      intro hall
      obtain ⟨a, ha, hv⟩ := hbad
      exact hv (hall a ha)
    unfold manualAllocate
    simp only [h]
    rw [if_neg hres, if_neg hnall]
  · intro e h
    simp [runOp, h]
  · intro e h
    simp [runOp, h]

/-- Witness for C7 at concrete inputs: an empty zone list is rejected as
InvalidRequest and a manual allocation on an unknown incident as
UnknownIncident, both leaving the state unchanged. -/
theorem C7_validation_witness :
    simulate 5 .overload .MAJOR [] sysEx = .error .InvalidRequest ∧
    manualAllocate 5 [("hospital", 50)] sysEx = .error .UnknownIncident ∧
    runOp (simulate 5 .overload .MAJOR [] sysEx) sysEx = sysEx :=
  ⟨(C7_validation 5 .overload .MAJOR [] [("hospital", 50)] sysEx).1 rfl,
    (C7_validation 5 .overload .MAJOR [] [("hospital", 50)] sysEx).2.2.1 rfl,
    (C7_validation 5 .overload .MAJOR [] [("hospital", 50)] sysEx).2.2.2.2.2.1
      .InvalidRequest
      ((C7_validation 5 .overload .MAJOR [] [("hospital", 50)] sysEx).1 rfl)⟩

end Blackout

